import Mathlib

/-!
Verification development for the udi-av-poly device-communication core.

Shallow embedding of:
* the device lifecycle state machine (`src/av_devices/av_device.py`,
  class `StateMachine` and the `AvDevice` entry actions),
* the Pioneer VSX-1021 line protocol client
  (`src/av_devices/pioneer_vsx1021_device.py`),
* the Sony Bravia framed protocol client
  (`src/av_devices/sony_bravia_xbr_device.py`, `CommData` and
  `ClientHandler`),
* the SSDP discovery service (`src/ssdp/ssdp.py`).

Python strings are modelled as Lean `String`s, byte strings of ASCII data
as `List Char`, Python ints as `Int`, and Python floats (which in the code
only ever hold exactly-representable half-integers, or are immediately
truncated) as `Rat`.
-/

/-! ## Lifecycle state machine (`src/av_devices/av_device.py`, `StateMachine`) -/

/-- The seven states declared in `StateMachine.__init__`. -/
inductive SMState
  | not_running
  | starting
  | running
  | disconnecting
  | shutting_down
  | error
  | reconnecting
deriving DecidableEq, Repr

/-- The seven triggers declared in `StateMachine.__init__`.
`start` is also what the `reconnecting` state's 10s timeout fires. -/
inductive Trigger
  | start
  | started
  | close
  | disconnected
  | shutdown
  | reconnect
  | handle_error
deriving DecidableEq, Repr

/-- The transition table of `StateMachine.__init__`, one clause per entry of
the `transitions` list.  `none` means the trigger has no transition from that
source state (the `transitions` library raises `MachineError` and the state
is unchanged).  The `close` transition from `not_running` has dest `"="`,
i.e. a reflexive transition back to `not_running`.  `shutdown` has source
`"*"`: every state, including `shutting_down` itself. -/
def smStep : SMState → Trigger → Option SMState
  | .not_running,   .start        => some .starting
  | .reconnecting,  .start        => some .starting
  | .starting,      .started      => some .running
  | .disconnecting, .disconnected => some .not_running
  | .running,       .close        => some .disconnecting
  | .not_running,   .close        => some .not_running
  | _,              .shutdown     => some .shutting_down
  | .error,         .reconnect    => some .reconnecting
  | .starting,      .handle_error => some .error
  | .running,       .handle_error => some .error
  | _,              _             => none

/-- Firing a trigger on a session: a trigger with no transition from the
current state leaves the state unchanged. -/
def applyTrigger (s : SMState) (t : Trigger) : SMState :=
  (smStep s t).getD s

/-- The state reached after a sequence of triggers. -/
def runTriggers (s : SMState) (ts : List Trigger) : SMState :=
  ts.foldl applyTrigger s

/-- The list of the seven defined lifecycle states. -/
def allStates : List SMState :=
  [.not_running, .starting, .running, .disconnecting, .shutting_down,
   .error, .reconnecting]

lemma mem_allStates (s : SMState) : s ∈ allStates := by
  cases s <;> simp [allStates]

lemma smStep_shutting_down_fix (t : Trigger) :
    applyTrigger .shutting_down t = .shutting_down := by
  cases t <;> rfl

lemma runTriggers_shutting_down (ts : List Trigger) :
    runTriggers .shutting_down ts = .shutting_down := by
  induction ts with
  | nil => rfl
  | cons t ts ih =>
      simp only [runTriggers, List.foldl_cons] at ih ⊢
      rw [show applyTrigger .shutting_down t = .shutting_down from
        smStep_shutting_down_fix t]
      exact ih

/-- C1: for every trigger sequence starting from `not_running` the session's
state is one of the seven defined states; `shutdown` is accepted from every
state and moves to `shutting_down`; and once in `shutting_down`, no sequence
of triggers leaves that state. -/
theorem lifecycle_states_closed_shutdown_terminal :
    (∀ ts : List Trigger, runTriggers .not_running ts ∈ allStates)
      ∧ (∀ s : SMState, smStep s .shutdown = some .shutting_down)
      ∧ (∀ ts : List Trigger, runTriggers .shutting_down ts = .shutting_down) := by
  refine ⟨fun ts => mem_allStates _, fun s => ?_, runTriggers_shutting_down⟩
  cases s <;> rfl

/-! ## Listener callbacks and entry actions (`AvDevice`) -/

/-- The callbacks of `AvDevice.Listener`.  `on_input` carries the opaque
input code (an int for the Sony driver, `None` initially). -/
inductive LCall
  | on_power (power_state : Bool)
  | on_volume (volume : Int)
  | on_mute (mute_state : Bool)
  | on_input (input_value : Option Int)
  | on_connected
  | on_disconnected
  | on_responding
  | on_not_responding
deriving DecidableEq, Repr

/-- Exception classes relevant to the device code.  `socketError`,
`gaiError` and `eofError` stand for `socket.error`, `socket.gaierror` and
`EOFError`; `notResponding` for `AvDevice.NotResponding`; `valueError` for
`ValueError` (e.g. from `int()` on a non-numeric string); `attributeError`
for `AttributeError` (e.g. from calling a method that does not exist). -/
inductive PyExc
  | socketError
  | gaiError
  | eofError
  | notResponding
  | valueError
  | attributeError
deriving DecidableEq, Repr

/-- Listener callbacks invoked on each registered listener by the
`on_enter_<state>` handlers of `AvDevice`, for the states whose entry action
does not depend on the triggering event.  `on_enter_not_running` only sets
the startup-complete event; `on_enter_running` calls `on_connected` on each
listener; `on_enter_disconnecting` and `on_enter_shutting_down` call
`on_disconnected` on each listener.  The `error` state's entry action
depends on the event's source and error and is modelled by
`on_enter_error_calls` below. -/
def enterCalls : SMState → List LCall
  | .running => [.on_connected]
  | .disconnecting => [.on_disconnected]
  | .shutting_down => [.on_disconnected]
  | _ => []

/-- `AvDevice.on_enter_error`: the pair of (callbacks invoked on each
listener, follow-up trigger fired).  From `running`, `on_not_responding` is
emitted only when the error is an `AvDevice.NotResponding` instance, then
the listener thread is stopped, the connection closed best-effort, and
`reconnect` fired.  From `starting`, `on_not_responding` is always emitted
and `reconnect` fired.  No other source reaches this handler
(`handle_error` only fires from `starting` and `running`). -/
def on_enter_error_calls (source : SMState) (e : PyExc) :
    List LCall × Option Trigger :=
  if source = .running then
    ((if e = .notResponding then [.on_not_responding] else []), some .reconnect)
  else if source = .starting then
    ([.on_not_responding], some .reconnect)
  else ([], none)

/-- Fan-out of one entry action over the registered listeners, in
registration order (`for l in self.listeners: l.<callback>()`). -/
def fanOut (listeners : List Nat) (calls : List LCall) : List (Nat × LCall) :=
  listeners.flatMap fun l => calls.map fun c => (l, c)

/-- The listener notifications produced by firing `close` while in
`running`: entry into `disconnecting` (which then fires `disconnected`,
entering `not_running`, whose entry action notifies no listener). -/
def closeFromRunningCalls : List LCall :=
  enterCalls .disconnecting ++ enterCalls .not_running

/-- C9: `close` in `not_running` is a reflexive no-op emitting no listener
notification, while `close` in `running` moves to `disconnecting`, whose
entry action (followed by the `disconnected` cascade into `not_running`)
emits exactly one `on_disconnected` per registered listener, in
registration order. -/
theorem close_idempotent_not_running_and_disconnect_notify :
    smStep .not_running .close = some .not_running
      ∧ enterCalls .not_running = []
      ∧ smStep .running .close = some .disconnecting
      ∧ closeFromRunningCalls = [.on_disconnected]
      ∧ ∀ listeners : List Nat,
          fanOut listeners closeFromRunningCalls
            = listeners.map fun l => (l, LCall.on_disconnected) := by
  refine ⟨rfl, rfl, rfl, rfl, fun listeners => ?_⟩
  induction listeners with
  | nil => rfl
  | cons l ls ih => simpa [fanOut, closeFromRunningCalls, enterCalls] using ih

/-! ## `AvDevice` cached-value property setters -/

/-- The fields of `AvDevice.__init__` relevant to the cached observed
values, plus the registered listeners (modelled by opaque ids in
registration order). -/
structure AvDeviceState where
  power : Bool
  volume : Int
  mute : Bool
  input : Option Int
  listeners : List Nat
deriving DecidableEq, Repr

/-- `AvDevice.__init__`: `_power = False`, `_volume = 0`, `_mute = False`,
`_input = None`, `listeners = []`. -/
def avDeviceInit : AvDeviceState :=
  { power := false, volume := 0, mute := false, input := none, listeners := [] }

/-- The `power` property setter: assign the cached value, then invoke
`on_power(self.power)` on every listener (no change detection). -/
def setPowerProp (s : AvDeviceState) (power_state : Bool) :
    AvDeviceState × List (Nat × LCall) :=
  let s' := { s with power := power_state }
  (s', s'.listeners.map fun l => (l, .on_power s'.power))

/-- The `volume` property setter. -/
def setVolumeProp (s : AvDeviceState) (volume : Int) :
    AvDeviceState × List (Nat × LCall) :=
  let s' := { s with volume := volume }
  (s', s'.listeners.map fun l => (l, .on_volume s'.volume))

/-- The `mute` property setter. -/
def setMuteProp (s : AvDeviceState) (mute_state : Bool) :
    AvDeviceState × List (Nat × LCall) :=
  let s' := { s with mute := mute_state }
  (s', s'.listeners.map fun l => (l, .on_mute s'.mute))

/-- The `input` property setter. -/
def setInputProp (s : AvDeviceState) (input_value : Option Int) :
    AvDeviceState × List (Nat × LCall) :=
  let s' := { s with input := input_value }
  (s', s'.listeners.map fun l => (l, .on_input s'.input))

/-- C10: every assignment through the `power`/`volume`/`mute`/`input`
property setters notifies every registered listener exactly once, in
registration order, with the newly assigned value — unconditionally, so in
particular also when the assigned value equals the cached one (the
universally quantified statement places no constraint relating the new
value to the state's current value). -/
theorem property_setters_always_notify :
    ∀ (s : AvDeviceState) (b : Bool) (v : Int) (i : Option Int),
      (setPowerProp s b).2 = (s.listeners.map fun l => (l, LCall.on_power b))
        ∧ (setVolumeProp s v).2
            = (s.listeners.map fun l => (l, LCall.on_volume v))
        ∧ (setMuteProp s b).2 = (s.listeners.map fun l => (l, LCall.on_mute b))
        ∧ (setInputProp s i).2
            = (s.listeners.map fun l => (l, LCall.on_input i))
        ∧ (setPowerProp s s.power).2
            = (s.listeners.map fun l => (l, LCall.on_power s.power)) := by
  intro s b v i
  exact ⟨rfl, rfl, rfl, rfl, rfl⟩

/-! ## Pioneer VSX-1021 line client (`src/av_devices/pioneer_vsx1021_device.py`) -/

/-- Decimal digit accumulator: `none` as soon as a non-digit appears. -/
def pyDigitsAux (acc : Nat) : List Char → Option Nat
  | [] => some acc
  | c :: cs =>
      if c.isDigit then pyDigitsAux (acc * 10 + (c.toNat - 48)) cs else none

/-- Python `int(s)` on the decimal strings exchanged by the protocol: an
optional sign followed by at least one digit; `none` models the
`ValueError` raised on anything else.  (Python `int()` additionally strips
surrounding whitespace and permits digit-group underscores; the device
never sends either.) -/
def pyInt (s : String) : Option Int :=
  match s.data with
  | [] => none
  | '-' :: c :: cs => (pyDigitsAux 0 (c :: cs)).map fun n => -(n : Int)
  | '+' :: c :: cs => (pyDigitsAux 0 (c :: cs)).map fun n => (n : Int)
  | cs => (pyDigitsAux 0 cs).map fun n => (n : Int)

/-- Python 3 `round(q)` (round-half-to-even) on an exact value. -/
def pyRound (q : ℚ) : ℤ :=
  if q - ⌊q⌋ < 1 / 2 then ⌊q⌋
  else if 1 / 2 < q - ⌊q⌋ then ⌊q⌋ + 1
  else if ⌊q⌋ % 2 = 0 then ⌊q⌋ else ⌊q⌋ + 1

/-- Python `int(q)` on a numeric value: truncation toward zero. -/
def pyTrunc (q : ℚ) : ℤ :=
  if 0 ≤ q then ⌊q⌋ else ⌈q⌉

/-- `_update_states`, `VOL` branch: `self._volDbScale = (vol - 161) / 2`. -/
def volDbOf (vol : ℤ) : ℚ :=
  (vol - 161) / 2

/-- `_update_states`, `VOL` branch: `self._vol100Scale = int(vol / 1.65)`
(the float literal `1.65` modelled as `33/20`). -/
def vol100Of (vol : ℤ) : ℤ :=
  pyTrunc (vol / (33 / 20 : ℚ))

/-- `set_volume_db`: `scaled_volume = int(round((volume * 2) + 161, 0))`. -/
def setVolumeDbScaled (volume : ℚ) : ℤ :=
  pyRound (volume * 2 + 161)

/-- `PioneerVSX1021Device.INPUTS`, in source order. -/
def pioneerINPUTS : List (String × String) :=
  [("PHONO", "00"), ("CD", "01"), ("TUNER", "02"), ("CD-R/TAPE", "03"),
   ("DVD", "04"), ("TV/SAT", "05"), ("VIDEO1", "10"), ("MULTI CH IN", "12"),
   ("VIDEO2", "14"), ("DVR/BDR", "15"), ("IPOD/USB", "17"), ("XM RADIO", "18"),
   ("HDMI1", "19"), ("HDMI2", "20"), ("HDMI3", "21"), ("HDMI4", "22"),
   ("HDMI5", "23"), ("BD", "25"), ("HOME MEDIA GALLERY", "26"),
   ("SIRIUS", "27"), ("HDMI CYCLE", "31"), ("ADAPTER", "33")]

/-- `INVERTED_INPUTS[code]`: the input name for a device code; `none`
models the `KeyError` on an unknown code. -/
def invertedInputsLookup (code : String) : Option String :=
  (pioneerINPUTS.find? fun p => p.2 = code).map (·.1)

/-- The instance state of `PioneerVSX1021Device` touched by
`_update_states`: the cached values inherited from `AvDevice`
(`_power`, `_volume`, `_mute`, `_input`) and the client's own
`_volDbScale`, `_vol100Scale`, `_sourceText`. -/
structure PioneerState where
  power : Bool
  volume : Int
  mute : Bool
  input : Option Int
  volDbScale : Option ℚ
  vol100Scale : Option Int
  sourceText : Option String
deriving DecidableEq, Repr

/-- The freshly constructed state: `AvDevice.__init__` sets `_power =
False`, `_volume = 0`, `_mute = False`, `_input = None`;
`PioneerVSX1021Device.__init__` sets `_volDbScale = _vol100Scale =
_sourceText = None`. -/
def pioneerInit : PioneerState :=
  { power := false, volume := 0, mute := false, input := none,
    volDbScale := none, vol100Scale := none, sourceText := none }

/-- Result of one `_update_states(data)` call: the callbacks invoked on
each listener (in order), the resulting instance state, the commands passed
to `_send` (the function sends none), and the exception propagating out of
the call, if any. -/
structure UpdateOutcome where
  calls : List LCall
  st : PioneerState
  sends : List String
  exc : Option PyExc
deriving DecidableEq, Repr

/-- `PioneerVSX1021Device._update_states(data)`.  The function first calls
`on_responding()` on every listener, then branches on `data[0:3]` and
`data[0:2]` (the Python `if`s are sequential but their guards are mutually
exclusive, and every matched branch below raises, so an `if`/`else` chain is
equivalent).  The `PWR`, `VOL`, `MUT` and `FN` branches call
`super().set_power` / `super().set_volume` / `super().set_mute` /
`super().set_source`; the parent class `AvDevice` defines none of these
methods (its setters are the `power`/`volume`/`mute`/`input` properties),
so each such call raises `AttributeError` — after any instance fields
assigned earlier in the branch have been written. -/
def pioneerUpdateStates (st : PioneerState) (data : String) : UpdateOutcome :=
  let calls : List LCall := [.on_responding]
  let command := data.take 3
  let value := data.drop 3
  if command = "PWR" then
    ⟨calls, st, [], some .attributeError⟩
  else if command = "VOL" then
    match pyInt value with
    | none => ⟨calls, st, [], some .valueError⟩
    | some vol =>
        let st' := { st with volDbScale := some (volDbOf vol),
                             vol100Scale := some (vol100Of vol) }
        ⟨calls, st', [], some .attributeError⟩
  else if command = "MUT" then
    ⟨calls, st, [], some .attributeError⟩
  else
    let command2 := data.take 2
    if command2 = "FN" then
      let code := (data.drop 2).take 2
      let srcText := (invertedInputsLookup code).getD ("Unknown input found: " ++ code)
      let st' := { st with sourceText := some srcText }
      ⟨calls, st', [], some .attributeError⟩
    else
      ⟨calls, st, [], none⟩

/-- The exception classes named in the `except` clause of
`_input_listener`: `(socket.error, socket.gaierror, EOFError)`. -/
def readLoopCaught : PyExc → Bool
  | .socketError => true
  | .gaiError => true
  | .eofError => true
  | _ => false

/-- What one iteration of the read loop observes: either the socket read
itself raised, or a complete line was received. -/
inductive ReadEvent
  | sockExc (e : PyExc)
  | line (data : String)
deriving DecidableEq, Repr

/-- Outcome of one iteration of `_input_listener`'s `try` body. -/
inductive IterOutcome
  | routed (e : PyExc)
  | propagated (e : PyExc)
  | ok (st : PioneerState)
deriving DecidableEq, Repr

/-- One iteration of `PioneerVSX1021Device._input_listener`: the `try`
block covers the socket read and the `_update_states(data)` call; only
`socket.error`, `socket.gaierror` and `EOFError` are caught and routed to
`self.handle_error(error=e)`; any other exception propagates out of the
loop and terminates the listener thread. -/
def input_listener_iter (st : PioneerState) (ev : ReadEvent) : IterOutcome :=
  match ev with
  | .sockExc e => if readLoopCaught e then .routed e else .propagated e
  | .line data =>
      let r := pioneerUpdateStates st data
      match r.exc with
      | some e => if readLoopCaught e then .routed e else .propagated e
      | none => .ok r.st

/-- Outcome of `AvDevice.on_enter_starting`'s connect phase. -/
inductive StartOutcome
  | errorRouted (e : PyExc)
  | startedFired
deriving DecidableEq, Repr

/-- `AvDevice.on_enter_starting`: `self.connect()` is wrapped in
`try/except Exception`, so every exception raised by the connect hook is
routed to `self.handle_error(error=e)` and the handler returns; on success
the listener thread is started and `started` fired (both themselves guarded
by an outer `try/except Exception` routing to `handle_error` as well). -/
def on_enter_starting_connect (connectExc : Option PyExc) : StartOutcome :=
  match connectExc with
  | some e => .errorRouted e
  | none => .startedFired

lemma pyRound_intCast (n : ℤ) : pyRound (n : ℚ) = n := by
  simp [pyRound]

/-- C5: the decibel value exposed for a native volume code `v` is
`(v - 161) / 2` (so code 161 is 0.0 dB), and `set_volume_db` applied to
that decibel value computes `int(round(db * 2 + 161))`, reproducing `v`
exactly. -/
theorem volume_db_round_trip :
    volDbOf 161 = 0 ∧ ∀ v : ℤ, setVolumeDbScaled (volDbOf v) = v := by
  constructor
  · norm_num [volDbOf]
  · intro v
    have h : volDbOf v * 2 + 161 = (v : ℚ) := by
      unfold volDbOf
      ring
    rw [setVolumeDbScaled, h, pyRound_intCast]

lemma pioneerUpdateStates_calls (st : PioneerState) (data : String) :
    (pioneerUpdateStates st data).calls = [.on_responding] := by
  simp only [pioneerUpdateStates]
  repeat' split
  all_goals rfl

/-- C3 counterexample: the line `"VOLX"` received by the read loop raises
`ValueError` while being parsed (`int("X")`), and that exception is not in
the read loop's `except` clause, so it propagates out of the listener
thread instead of being routed through `handle_error`. -/
theorem read_loop_parse_exception_escapes :
    input_listener_iter pioneerInit (.line "VOLX")
      = .propagated .valueError := by
  rfl

/-- C3 (amended): every exception raised in the `connect` hook is routed
through `handle_error`; an exception raised inside the read loop is routed
if and only if it is `socket.error`, `socket.gaierror` or `EOFError` —
any other exception (such as a `ValueError` raised while parsing a
received line) propagates and terminates the listener thread. -/
theorem connect_exceptions_routed_read_loop_socket_only :
    (∀ e : PyExc, on_enter_starting_connect (some e) = .errorRouted e)
      ∧ (∀ (st : PioneerState) (e : PyExc),
          input_listener_iter st (.sockExc e) = .routed e
            ↔ (e = .socketError ∨ e = .gaiError ∨ e = .eofError))
      ∧ (∀ (st : PioneerState) (e : PyExc),
          input_listener_iter st (.sockExc e) = .propagated e
            ↔ ¬(e = .socketError ∨ e = .gaiError ∨ e = .eofError))
      ∧ (∀ st : PioneerState,
          input_listener_iter st (.line "VOLX") = .propagated .valueError) := by
  refine ⟨fun e => rfl, fun st e => ?_, fun st e => ?_, fun st => rfl⟩
  · cases e <;> simp [input_listener_iter, readLoopCaught]
  · cases e <;> simp [input_listener_iter, readLoopCaught]

/-- C6 counterexample: an ordinary read failure (`socket.error`) routed
through `handle_error` while the session is `running` emits no
`on_not_responding` callback at all — `on_enter_error` only notifies when
the error is an `AvDevice.NotResponding` instance; and `on_responding` is
emitted once per processed line (here twice across the two consecutive
status lines `"E04"`, `"E06"`), not exactly once after reconnection. -/
theorem running_socket_error_no_not_responding :
    ((on_enter_error_calls .running .socketError).1.count .on_not_responding = 0)
      ∧ (on_enter_error_calls .running .socketError).1 = []
      ∧ ((pioneerUpdateStates pioneerInit "E04").calls
            ++ (pioneerUpdateStates (pioneerUpdateStates pioneerInit "E04").st
                  "E06").calls).count .on_responding = 2 := by
  exact ⟨rfl, rfl, rfl⟩

/-- C6 (amended): `handle_error` from `running` enters `error`; the entry
action emits exactly one `on_not_responding` per listener when and only
when the fault is `AvDevice.NotResponding` (zero for any other read
fault), and fires `reconnect` in every case; from `starting` it always
emits one per listener; and each line processed by the read loop emits
exactly one `on_responding` per listener (one per processed line — so
after a reconnect, the replies to the initialization queries each produce
one, rather than one call overall). -/
theorem error_and_responding_notifications :
    smStep .running .handle_error = some .error
      ∧ (∀ e : PyExc,
          ((on_enter_error_calls .running e).1.count .on_not_responding
              = if e = .notResponding then 1 else 0)
            ∧ (on_enter_error_calls .running e).2 = some .reconnect)
      ∧ (∀ e : PyExc,
          (on_enter_error_calls .starting e).1.count .on_not_responding = 1)
      ∧ (∀ (st : PioneerState) (data : String),
          (pioneerUpdateStates st data).calls.count .on_responding = 1) := by
  refine ⟨rfl, fun e => ⟨?_, ?_⟩, fun e => ?_, fun st data => ?_⟩
  · cases e <;> rfl
  · cases e <;> rfl
  · cases e <;> rfl
  · rw [pioneerUpdateStates_calls]
    rfl

/-- C7 counterexample: processing the line `"PWR0"` does not set the
cached power to true and issues no command at all (in particular no volume
query): the branch calls `super().set_power`, which does not exist on
`AvDevice`, so `AttributeError` is raised and the cached state is left
unchanged. -/
theorem pwr0_no_power_update_no_volume_query :
    (pioneerUpdateStates pioneerInit "PWR0").st.power = false
      ∧ (pioneerUpdateStates pioneerInit "PWR0").sends = []
      ∧ (pioneerUpdateStates pioneerInit "PWR0").exc = some .attributeError := by
  exact ⟨rfl, rfl, rfl⟩

/-- C7 (amended): processing `"PWR0"` emits `on_responding` to each
listener and then raises `AttributeError` at the missing
`super().set_power`, leaving the cached state unchanged and issuing no
command; processing `"VOL120"` assigns the decibel volume `-20.5` and the
0-100 scale value `72` before raising `AttributeError` at the missing
`super().set_volume`, so the raw cached volume is not updated. -/
theorem pioneer_line_pwr_vol_behavior :
    ∀ st : PioneerState,
      pioneerUpdateStates st "PWR0" = ⟨[.on_responding], st, [], some .attributeError⟩
        ∧ (pioneerUpdateStates st "VOL120").st.volDbScale = some (-41 / 2 : ℚ)
        ∧ (-41 / 2 : ℚ) = -20.5
        ∧ (pioneerUpdateStates st "VOL120").st.vol100Scale = some 72
        ∧ (pioneerUpdateStates st "VOL120").st.volume = st.volume
        ∧ (pioneerUpdateStates st "VOL120").sends = []
        ∧ (pioneerUpdateStates st "VOL120").exc = some .attributeError := by
  intro st
  refine ⟨rfl, ?_, by norm_num, ?_, rfl, rfl, rfl⟩
  · show some (volDbOf 120) = some (-41 / 2 : ℚ)
    norm_num [volDbOf]
  · show some (vol100Of 120) = some 72
    norm_num [vol100Of, pyTrunc]

/-! ## Sony Bravia framed protocol (`src/av_devices/sony_bravia_xbr_device.py`) -/

/-- The four message classes of the `Type` enum: control `"C"`, enquiry
`"E"`, answer `"A"`, notify `"N"`. -/
def typeValues : List (List Char) :=
  [['C'], ['E'], ['A'], ['N']]

/-- The null byte used by `struct` to pad short `s`-fields. -/
def nulChar : Char := Char.ofNat 0

/-- Packing one `s`-field of width `n` with Python `struct`: a longer
value is silently truncated, a shorter one padded with null bytes. -/
def padTrunc (n : Nat) (s : List Char) : List Char :=
  s.take n ++ List.replicate (n - s.length) nulChar

/-- `CommData._header = b"*S"`. -/
def commHeader : List Char := ['*', 'S']

/-- `CommData._footer = bytes([0x0a])`. -/
def commFooter : List Char := [Char.ofNat 10]

/-- The {class, function, parameter} triple carried by a `CommData` frame.
(`unpack` additionally stores the sliced header and footer bytes back onto
the object; they are fixed framing, not part of the command value.) -/
structure CommData where
  ctype : List Char
  function : List Char
  parameter : List Char
deriving DecidableEq, Repr

/-- `CommData.pack`: `struct.Struct("2sc4s16sc").pack(header, ctype,
function, parameter, footer)` — a 2-byte header, 1-byte class, 4-byte
function code, 16-byte parameter, 1-byte footer, each field padded or
truncated to its width. -/
def CommData.pack (c : CommData) : List Char :=
  padTrunc 2 commHeader ++ padTrunc 1 c.ctype ++ padTrunc 4 c.function
    ++ padTrunc 16 c.parameter ++ padTrunc 1 commFooter

/-- `CommData.unpack`: `struct.Struct("2sc4s16sc").unpack(data)` requires
exactly 24 bytes (`struct.error` otherwise, modelled by `none`) and slices
the class, function and parameter fields back out. -/
def CommData.unpack (bs : List Char) : Option CommData :=
  if bs.length = 24 then
    some ⟨(bs.drop 2).take 1, (bs.drop 3).take 4, (bs.drop 7).take 16⟩
  else none

lemma padTrunc_length (n : Nat) (s : List Char) : (padTrunc n s).length = n := by
  simp [padTrunc]
  omega

lemma padTrunc_of_length (n : Nat) (s : List Char) (h : s.length = n) :
    padTrunc n s = s := by
  subst h
  simp [padTrunc]

/-- C4: for every framed command whose message class is one of
control/enquiry/answer/notify and whose function and parameter fields have
their declared widths (4 and 16), `pack` produces a frame of exactly 24
bytes and `unpack` of that frame returns the identical
{class, function, parameter} triple. -/
theorem commdata_pack_unpack_round_trip
    (c : CommData) (hc : c.ctype ∈ typeValues)
    (hf : c.function.length = 4) (hp : c.parameter.length = 16) :
    c.pack.length = 24 ∧ CommData.unpack c.pack = some c := by
  obtain ⟨ct, fn, pm⟩ := c
  simp only [typeValues, List.mem_cons, List.mem_singleton, List.not_mem_nil,
    or_false] at hc
  simp only at hf hp
  obtain ⟨a, rfl⟩ : ∃ a, ct = [a] := by
    rcases hc with h | h | h | h <;> exact ⟨_, h⟩
  have hpack : CommData.pack ⟨[a], fn, pm⟩
      = '*' :: 'S' :: a :: (fn ++ (pm ++ [Char.ofNat 10])) := by
    rw [CommData.pack, padTrunc_of_length 2 commHeader rfl,
      padTrunc_of_length 1 [a] rfl, padTrunc_of_length 4 fn hf,
      padTrunc_of_length 16 pm hp, padTrunc_of_length 1 commFooter rfl]
    simp [commHeader, commFooter]
  have hlen : (CommData.pack ⟨[a], fn, pm⟩).length = 24 := by
    rw [hpack]
    simp [hf, hp]
  refine ⟨hlen, ?_⟩
  rw [CommData.unpack, if_pos hlen, hpack]
  refine congrArg some ?_
  simp only [CommData.mk.injEq]
  refine ⟨rfl, ?_, ?_⟩
  · show (fn ++ (pm ++ [Char.ofNat 10])).take 4 = fn
    rw [List.take_append_of_le_length (le_of_eq hf.symm),
      List.take_of_length_le (le_of_eq hf)]
  · show ((fn ++ (pm ++ [Char.ofNat 10])).drop 4).take 16 = pm
    have hdrop : (fn ++ (pm ++ [Char.ofNat 10])).drop 4 = pm ++ [Char.ofNat 10] := by
      rw [← hf, List.drop_left]
    rw [hdrop, List.take_append_of_le_length (le_of_eq hp.symm),
      List.take_of_length_le (le_of_eq hp)]

/-- C4 witness: the power enquiry frame built by
`CommData(Type.ENQUIRY).get_power()` (class `"E"`, function `"POWR"`,
parameter `"#" * 16`) satisfies the round-trip at a concrete input. -/
theorem commdata_round_trip_witness :
    ((⟨['E'], "POWR".data, List.replicate 16 '#'⟩ : CommData).ctype ∈ typeValues
        ∧ "POWR".data.length = 4 ∧ (List.replicate 16 '#').length = 16)
      ∧ (⟨['E'], "POWR".data, List.replicate 16 '#'⟩ : CommData).pack.length = 24
      ∧ CommData.unpack (⟨['E'], "POWR".data, List.replicate 16 '#'⟩ : CommData).pack
          = some ⟨['E'], "POWR".data, List.replicate 16 '#'⟩ := by
  refine ⟨⟨by decide, by decide, by decide⟩, ?_, ?_⟩
  · exact (commdata_pack_unpack_round_trip _ (by decide) (by decide) (by decide)).1
  · exact (commdata_pack_unpack_round_trip _ (by decide) (by decide) (by decide)).2

/-! ## Sony `ClientHandler` event loop (`writable`/`handle_read`/`handle_write`)

The `ClientHandler` classes in `sony_bravia_xbr_device.py` and
`sony_bravia_xbr_65x810c_device.py` have identical `writable` predicates and
identical queue/buffer manipulation in `handle_read`/`handle_write` (they
differ only in when `task_done` bookkeeping is called and in logging);
the model below follows `sony_bravia_xbr_device.py`. -/

/-- The mutable handler state observed by the event loop: `_sendQ` (a
priority queue keyed by strictly increasing submission times, hence FIFO),
`_writeBuffer` (a stack of partially unsent byte chunks), and
`_waitForResponseQ` (the FIFO awaiting-answer queue). -/
structure ClientState where
  sendQ : List CommData
  writeBuffer : List (List Char)
  waitQ : List CommData
deriving DecidableEq, Repr

/-- `ClientHandler.__init__`: all three containers empty. -/
def clientInit : ClientState :=
  { sendQ := [], writeBuffer := [], waitQ := [] }

/-- `ClientHandler.writable`:
`(len(self._writeBuffer) > 0 or not self._sendQ.empty()) and
self._waitForResponseQ.empty()`. -/
def writable (s : ClientState) : Bool :=
  (s.writeBuffer.length > 0 || !s.sendQ.isEmpty) && s.waitQ.isEmpty

/-- `ClientHandler.handle_write` with `sent` bytes accepted by the socket:
if the write buffer is non-empty its most recently pushed chunk is popped
and re-buffered past `sent` bytes if still incomplete; otherwise the oldest
queued command is dequeued, stashed on the awaiting-answer queue, packed,
and its unsent remainder buffered if the send was partial.  (`_sendQ.get()`
blocks on an empty queue; the event loop only calls `handle_write` when
`writable()` held, so that case is modelled as a no-op.) -/
def handle_write (s : ClientState) (sent : Nat) : ClientState :=
  match s.writeBuffer.getLast? with
  | some data =>
      if sent < data.length then
        { s with writeBuffer := s.writeBuffer.dropLast ++ [data.drop sent] }
      else
        { s with writeBuffer := s.writeBuffer.dropLast }
  | none =>
      match s.sendQ with
      | [] => s
      | f :: rest =>
          let bytes := f.pack
          if sent < bytes.length then
            { sendQ := rest, writeBuffer := s.writeBuffer ++ [bytes.drop sent],
              waitQ := s.waitQ ++ [f] }
          else
            { sendQ := rest, writeBuffer := s.writeBuffer,
              waitQ := s.waitQ ++ [f] }

/-- `ClientHandler.handle_read` receiving `received` bytes: an empty read
notifies `on_connection_closed` and returns; otherwise the frame is
unpacked (`struct.error` on a short read leaves the queues untouched) and,
when its class is answer (`"A"`) and a command is awaiting an answer, that
command is dequeued.  The frame is then fanned out to the listeners. -/
def handle_read (s : ClientState) (received : List Char) : ClientState :=
  if received = [] then s
  else
    match CommData.unpack received with
    | none => s
    | some d =>
        if d.ctype = ['A'] then
          if s.waitQ.isEmpty then s else { s with waitQ := s.waitQ.tail }
        else s

/-- The events driving the handler: `send_command` (a caller queues a
command), a socket-ready-for-write callback (`handle_write`, invoked by the
`asyncore` loop only when `writable()` returned true), and a
socket-readable callback (`handle_read`). -/
inductive CEvent
  | send_command (f : CommData)
  | canWrite (sent : Nat)
  | received (bs : List Char)
deriving DecidableEq, Repr

/-- One step of the event loop. -/
def clientStep (s : ClientState) : CEvent → ClientState
  | .send_command f => { s with sendQ := s.sendQ ++ [f] }
  | .canWrite sent => if writable s then handle_write s sent else s
  | .received bs => handle_read s bs

/-- The handler state after a sequence of events from a fresh handler. -/
def clientRun (evs : List CEvent) : ClientState :=
  evs.foldl clientStep clientInit

lemma writable_waitQ_nil {s : ClientState} (h : writable s = true) :
    s.waitQ = [] := by
  have := (Bool.and_eq_true _ _).mp h
  exact List.isEmpty_iff.mp this.2

lemma clientStep_waitQ_le_one {s : ClientState} (hs : s.waitQ.length ≤ 1)
    (ev : CEvent) : (clientStep s ev).waitQ.length ≤ 1 := by
  cases ev with
  | send_command f => exact hs
  | canWrite sent =>
      by_cases hw : writable s
      · have hnil : s.waitQ = [] := writable_waitQ_nil hw
        simp only [clientStep, if_pos hw]
        unfold handle_write
        split
        · split <;> simp [hnil]
        · split
          · exact hs
          · simp only []
            split <;> simp [hnil]
      · simpa [clientStep, if_neg hw] using hs
  | received bs =>
      simp only [clientStep]
      unfold handle_read
      split
      · exact hs
      · split
        · exact hs
        · split
          · split
            · exact hs
            · simp only [List.length_tail]
              omega
          · exact hs

lemma clientRun_waitQ_le_one_aux (evs : List CEvent) :
    ∀ s : ClientState, s.waitQ.length ≤ 1
      → (evs.foldl clientStep s).waitQ.length ≤ 1 := by
  induction evs with
  | nil => exact fun s hs => hs
  | cons ev evs ih =>
      intro s hs
      exact ih _ (clientStep_waitQ_le_one hs ev)

/-- C2: from a fresh framed-protocol handler, every event sequence leaves
at most one command in the awaiting-answer queue; the socket reports
itself writable exactly when the send queue or partial-write buffer is
non-empty and the awaiting-answer queue is empty; and while a command is
awaiting an answer, a write opportunity transmits nothing — in particular
it dequeues no second command from the send queue. -/
theorem one_outstanding_command_invariant :
    (∀ evs : List CEvent, (clientRun evs).waitQ.length ≤ 1)
      ∧ (∀ s : ClientState,
          writable s = true ↔ ((s.writeBuffer ≠ [] ∨ s.sendQ ≠ []) ∧ s.waitQ = []))
      ∧ (∀ (s : ClientState) (sent : Nat),
          s.waitQ ≠ [] → clientStep s (.canWrite sent) = s) := by
  refine ⟨fun evs => clientRun_waitQ_le_one_aux evs clientInit (by simp [clientInit]),
    fun s => ?_, fun s sent hw => ?_⟩
  · simp [writable, List.isEmpty_iff, List.length_pos_iff_ne_nil, and_comm]
  · have hf : s.waitQ.isEmpty = false := by
      cases hq : s.waitQ with
      | nil => exact absurd hq hw
      | cons a l => rfl
    have : writable s = false := by
      simp [writable, hf]
    simp [clientStep, this]

/-- C2 witness: with one command queued and one already awaiting an
answer, the handler is not writable and a write opportunity is a no-op. -/
theorem one_outstanding_witness :
    (⟨[⟨['C'], "POWR".data, List.replicate 16 '0'⟩], [],
        [⟨['E'], "POWR".data, List.replicate 16 '#'⟩]⟩ : ClientState).waitQ ≠ []
      ∧ clientStep
          ⟨[⟨['C'], "POWR".data, List.replicate 16 '0'⟩], [],
           [⟨['E'], "POWR".data, List.replicate 16 '#'⟩]⟩ (.canWrite 24)
        = ⟨[⟨['C'], "POWR".data, List.replicate 16 '0'⟩], [],
           [⟨['E'], "POWR".data, List.replicate 16 '#'⟩]⟩ := by
  refine ⟨by decide, ?_⟩
  exact one_outstanding_command_invariant.2.2 _ 24 (by decide)

/-! ## SSDP discovery service (`src/ssdp/ssdp.py`) -/

/-- The segment of `s` before its first `"//"` occurrence (Python
`s.split("//")` scans left to right for non-overlapping separators;
`sv[1]` is the text between the first separator and the next one, or the
end of the string). -/
def takeUntil2Slash : List Char → List Char
  | '/' :: '/' :: _ => []
  | c :: rest => c :: takeUntil2Slash rest
  | [] => []

/-- `sv[1]` of `sv = loc.split("//")`: the segment after the first `"//"`;
`none` models `"//" not in loc` (in which case the code never indexes
`sv[1]`). -/
def partAfter2Slash : List Char → Option (List Char)
  | '/' :: '/' :: rest => some (takeUntil2Slash rest)
  | _ :: rest => partAfter2Slash rest
  | [] => none

/-- The filter applied by `SSDP._listen_thread` to a reply's location
before queueing it: the reply is kept only when the location contains
`"//"` and the part after it (`sv[1]`) contains a further `"/"`; otherwise
the loop `continue`s and the reply is dropped. -/
def ssdpAccept (loc : String) : Bool :=
  match partAfter2Slash loc.data with
  | none => false
  | some sv1 => sv1.any fun c => c = '/'

/-- One accepted-or-dropped reply in `_listen_thread`: an accepted
location is appended to the resolution queue (`_responseQueue`, priority =
arrival order), a rejected one is discarded. -/
def listenStep (q : List String) (loc : String) : List String :=
  if ssdpAccept loc then q ++ [loc] else q

/-- The resolution queue after the listener thread has handled a sequence
of reply locations, oldest first. -/
def listenRun (locs : List String) : List String :=
  locs.foldl listenStep []

/-- `SSDP._response_handler`: each queued location is fetched; exactly
those whose descriptor fetch succeeds (status 200, modelled by the
`fetchOK` oracle) are forwarded to every listener via `on_ssdp_response`. -/
def responseForward (fetchOK : String → Bool) (q : List String) : List String :=
  q.filter fetchOK

lemma mem_listenRun_accept {loc : String} :
    ∀ (locs : List String) (q : List String),
      loc ∈ locs.foldl listenStep q → loc ∈ q ∨ ssdpAccept loc = true := by
  intro locs
  induction locs with
  | nil => exact fun q h => Or.inl h
  | cons l ls ih =>
      intro q h
      rcases ih (listenStep q l) h with hq | hacc
      · unfold listenStep at hq
        split at hq
        · rcases List.mem_append.mp hq with h' | h'
          · exact Or.inl h'
          · rcases List.mem_singleton.mp h' with rfl
            simp_all
        · exact Or.inl hq
      · exact Or.inr hacc

/-- C8: a discovery reply whose location has no resolvable path component
(no `"//"`, or no `"/"` in the part after it) is never placed on the
resolution queue and is never forwarded to any listener via
`on_ssdp_response`, whatever other replies arrive and whatever the
descriptor fetches return. -/
theorem no_path_reply_never_queued_or_forwarded
    (locs : List String) (loc : String) (fetchOK : String → Bool)
    (h : ssdpAccept loc = false) :
    loc ∉ listenRun locs ∧ loc ∉ responseForward fetchOK (listenRun locs) := by
  have hq : loc ∉ listenRun locs := by
    intro hmem
    rcases mem_listenRun_accept locs [] hmem with h' | h'
    · simp at h'
    · rw [h] at h'
      exact Bool.false_ne_true h'
  refine ⟨hq, fun hmem => hq ?_⟩
  exact List.mem_of_mem_filter hmem

/-- C8 witness: a reply whose location is a bare `host:port` (no `"//"`)
is rejected by the filter, not queued, and not forwarded, concretely. -/
theorem no_path_reply_witness :
    ssdpAccept "192.168.1.20:8080" = false
      ∧ "192.168.1.20:8080"
          ∉ listenRun ["http://192.168.1.20:8080/desc.xml", "192.168.1.20:8080"]
      ∧ "192.168.1.20:8080"
          ∉ responseForward (fun _ => true)
              (listenRun ["http://192.168.1.20:8080/desc.xml", "192.168.1.20:8080"]) := by
  refine ⟨by decide, ?_, ?_⟩
  · exact (no_path_reply_never_queued_or_forwarded _ _ (fun _ => true) (by decide)).1
  · exact (no_path_reply_never_queued_or_forwarded _ _ (fun _ => true) (by decide)).2
